import Mathlib

/-!
Verification of the YouTube Trending Analyzer MVP against its
natural-language specification.

The repository consists of a Next.js frontend (src/lib/api.ts with the
axios client, src/lib utils with validateQuery and calculateEngagementRate,
the SearchForm component) and the project design document
(unnamed/part_000) that carries the backend pipeline in Python:
calculate_v7_trending_score (the MOMENTUM V7 ranker), get_trending_results
(the Redis-backed cache wrapper) and the scheduled scoring jobs.  The
pieces of backend logic that exist only as prose in the specification
(budget enforcement, batch grouping, orchestrator response assembly,
null-relevance handling) are modelled from the spec and marked as such.
-/

namespace YTTA

/-! ### The MOMENTUM V7 ranker (design document, calculate_v7_trending_score)

Python floats are modelled as exact reals; counts are carried as reals the
way the Python arithmetic mixes them. -/

/-- One video record as consumed by calculate_v7_trending_score: the
observed counts, the views attributed to the requested window, the age in
hours and the official-trending-feed membership flag. -/
structure Video where
  views : ℝ
  views_in_timeframe : ℝ
  likes : ℝ
  comments : ℝ
  age_hours : ℝ
  is_in_trending_feed : Bool

/-- views_per_hour = video.views_in_timeframe / timeframe_hours -/
noncomputable def views_per_hour (video : Video) (timeframe_hours : ℝ) : ℝ :=
  video.views_in_timeframe / timeframe_hours

/-- engagement_rate = (video.likes + video.comments) / max(video.views, 1) -/
noncomputable def engagement_rate (video : Video) : ℝ :=
  (video.likes + video.comments) / max video.views 1

/-- time_decay = math.exp(-video.age_hours / 24.0) -/
noncomputable def time_decay (video : Video) : ℝ :=
  Real.exp (-video.age_hours / 24.0)

/-- base_momentum = views_per_hour*0.6 + engagement_rate*views*0.3 +
views*time_decay*0.1 -/
noncomputable def base_momentum (video : Video) (timeframe_hours : ℝ) : ℝ :=
  views_per_hour video timeframe_hours * 0.6 +
    engagement_rate video * video.views * 0.3 +
    video.views * time_decay video * 0.1

/-- country_multiplier = 0.5 + (country_relevance * 1.5), the 0.5-2.0x
relevance multiplier. -/
noncomputable def country_multiplier (country_relevance : ℝ) : ℝ :=
  0.5 + country_relevance * 1.5

/-- trending_feed_boost = 1.5 if video.is_in_trending_feed else 1.0 -/
def trending_feed_boost (video : Video) : ℝ :=
  if video.is_in_trending_feed then 1.5 else 1.0

/-- final_score = base_momentum * country_multiplier * trending_feed_boost -/
noncomputable def final_score (video : Video)
    (country_relevance timeframe_hours : ℝ) : ℝ :=
  base_momentum video timeframe_hours * country_multiplier country_relevance *
    trending_feed_boost video

/-- The dictionary returned by calculate_v7_trending_score. -/
structure ScoreResult where
  trending_score : ℝ
  base : ℝ
  country_relevance : ℝ
  multiplier : ℝ
  trending_boost_applied : Bool
  normalized_score : ℝ

/-- calculate_v7_trending_score(video, country_relevance, timeframe):
assembles the MOMENTUM V7 score and its components. -/
noncomputable def calculate_v7_trending_score (video : Video)
    (country_relevance timeframe_hours : ℝ) : ScoreResult :=
  { trending_score := final_score video country_relevance timeframe_hours
    base := base_momentum video timeframe_hours
    country_relevance := country_relevance
    multiplier := country_multiplier country_relevance
    trending_boost_applied := video.is_in_trending_feed
    normalized_score :=
      min (final_score video country_relevance timeframe_hours / 10000 * 10) 10 }

/-- Modelled from the spec: the Momentum Ranker's treatment of a video with
no current relevance score.  The backend code that resolves a null
relevance_score is not in the repository sources; the spec states that an
unscored video receives the neutral multiplier 1.0 (no boost, no penalty),
while a scored video receives 0.5 + relevance_score*1.5. -/
noncomputable def country_multiplier_opt : Option ℝ → ℝ
  | none => 1.0
  | some r => country_multiplier r

/-- Modelled from the spec: final_score of a possibly-unscored video,
base_momentum * relevance multiplier * trending boost with the null case
of the multiplier resolved by country_multiplier_opt. -/
noncomputable def final_score_opt (video : Video) (relevance : Option ℝ)
    (timeframe_hours : ℝ) : ℝ :=
  base_momentum video timeframe_hours * country_multiplier_opt relevance *
    trending_feed_boost video

/-! ### Frontend utilities (src/lib utils) -/

/-- calculateEngagementRate(likes, comments, views) from the frontend
utils: returns 0 when views === 0, otherwise ((likes+comments)/views)*100. -/
def calculateEngagementRate (likes comments views : ℚ) : ℚ :=
  if views = 0 then 0 else (likes + comments) / views * 100

/-- Whitespace removed by the JavaScript string trim method (the common
ASCII whitespace characters). -/
def isJsWhitespace (c : Char) : Bool :=
  c = ' ' || c = '\t' || c = '\n' || c = '\r' || c = '\x0b' || c = '\x0c'

/-- JavaScript query.trim(): whitespace stripped from both ends. -/
def jsTrim (s : String) : String :=
  String.mk (((s.data.dropWhile isJsWhitespace).reverse.dropWhile
    isJsWhitespace).reverse)

/-- The { valid, error? } object returned by validateQuery. -/
structure ValidationResult where
  valid : Bool
  error : Option String
deriving DecidableEq

/-- validateQuery(query) from the frontend utils: trims the query, rejects
the empty string, a trimmed length below 2 and a trimmed length above 100,
and accepts everything else. -/
def validateQuery (query : String) : ValidationResult :=
  let trimmed := jsTrim query
  if trimmed = "" then
    { valid := false, error := some "Search query is required" }
  else if trimmed.length < 2 then
    { valid := false, error := some "Search query must be at least 2 characters long" }
  else if trimmed.length > 100 then
    { valid := false, error := some "Search query must be less than 100 characters" }
  else
    { valid := true, error := none }

/-- The country enum of the API types. -/
inductive CountryCode
  | DE
  | US
  | FR
  | JP
deriving DecidableEq

/-- The timeframe enum of the API types: 24h, 48h, 7d. -/
inductive TimeframeOption
  | t24h
  | t48h
  | t7d
deriving DecidableEq

/-- The SearchFormData object submitted by the search form. -/
structure SearchFormData where
  query : String
  country : CountryCode
  timeframe : TimeframeOption
  limit : ℕ
deriving DecidableEq

/-- handleSubmit of the SearchForm component: validates the query and only
dispatches the search (with the fixed limit 10) when validation passes;
an invalid query produces no search request at all. -/
def handleSubmit (form : SearchFormData) : Option SearchFormData :=
  if (validateQuery form.query).valid then
    some { form with limit := 10 }
  else
    none

/-! ### The Redis-backed result cache (design document, get_trending_results)

Timestamps are seconds; the Redis store is an explicit association list;
json.dumps/json.loads round-tripping is modelled as the identity on the
payload value. -/

/-- One ranked entry of a cached trending result. -/
structure RankedVideo where
  rank : ℕ
  video_id : String
  trending_score : ℚ
deriving DecidableEq

/-- The pipeline metadata carried inside a trending response. -/
structure PayloadMetadata where
  total_analyzed : ℕ
  cache_hit : Bool
deriving DecidableEq

/-- The RankedResult payload stored in and served from the cache. -/
structure TrendingPayload where
  success : Bool
  results : List RankedVideo
  metadata : PayloadMetadata
deriving DecidableEq

/-- Country codes as they appear inside cache keys. -/
def countryStr : CountryCode → String
  | .DE => "DE"
  | .US => "US"
  | .FR => "FR"
  | .JP => "JP"

/-- Timeframes as they appear inside cache keys. -/
def timeframeStr : TimeframeOption → String
  | .t24h => "24h"
  | .t48h => "48h"
  | .t7d => "7d"

/-- The cache key: trending:COUNTRY:QUERY:TIMEFRAME. -/
def cache_key (query : String) (country : CountryCode)
    (timeframe : TimeframeOption) : String :=
  "trending:" ++ countryStr country ++ ":" ++ query ++ ":" ++
    timeframeStr timeframe

/-- One Redis entry: key, stored payload and absolute expiry time. -/
structure CacheEntry where
  key : String
  value : TrendingPayload
  expires_at : ℕ
deriving DecidableEq

/-- redis.get(key) at time now: the stored payload if a non-expired entry
for the key exists. -/
def redis_get (store : List CacheEntry) (now : ℕ) (key : String) :
    Option TrendingPayload :=
  (store.find? (fun e => e.key == key && decide (now < e.expires_at))).map
    CacheEntry.value

/-- redis.setex(key, ttl, value) at time now: stores the value under the
key with expiry now + ttl, replacing any previous entry for the key. -/
def redis_setex (store : List CacheEntry) (now : ℕ) (key : String)
    (ttl : ℕ) (v : TrendingPayload) : List CacheEntry :=
  { key := key, value := v, expires_at := now + ttl } ::
    store.filter (fun e => e.key != key)

/-- get_trending_results(query, country, timeframe) from the design
document: try the cache first and return the cached payload verbatim on a
hit; on a miss run the analysis, cache the result for 7200 seconds and
return it.  perform_trending_analysis lives in the backend services and is
passed in as the analyze function. -/
def get_trending_results
    (analyze : String → CountryCode → TimeframeOption → TrendingPayload)
    (query : String) (country : CountryCode) (timeframe : TimeframeOption)
    (now : ℕ) (store : List CacheEntry) :
    TrendingPayload × List CacheEntry :=
  let key := cache_key query country timeframe
  match redis_get store now key with
  | some cached => (cached, store)
  | none =>
      let results := analyze query country timeframe
      (results, redis_setex store now key 7200 results)

/-- A fixed trending analysis used to exercise the cache model on
concrete inputs: one ranked video, metadata reporting a fresh (non-cache)
computation. -/
def sample_analysis (_ : String) (_ : CountryCode) (_ : TimeframeOption) :
    TrendingPayload :=
  { success := true
    results := [{ rank := 1, video_id := "vid1", trending_score := 42 }]
    metadata := { total_analyzed := 7, cache_hit := false } }

/-! ### Interleaving model of concurrent get_trending_results calls

Two requests for the same key run get_trending_results concurrently.  Each
request interleaves at its I/O points: the redis.get read, then (on a
miss) the perform_trending_analysis run together with the redis.setex
write-back.  The shared cache cell stands for the Redis entry of the one
key; a per-thread counter records how many full pipeline executions
(perform_trending_analysis calls) that thread performed. -/

/-- Where one request is inside get_trending_results: before the cache
read, after reading a miss (the pipeline run is now committed), or
finished with a result. -/
inductive ThreadState
  | ready
  | missed
  | finished (result : ℕ)
deriving DecidableEq

/-- The shared cache for the one key plus both request threads and their
pipeline-run counters. -/
structure SingleFlightState where
  cache : Option ℕ
  t1 : ThreadState
  t2 : ThreadState
  runs1 : ℕ
  runs2 : ℕ
deriving DecidableEq

/-- Total pipeline executions performed so far for the key. -/
def pipeline_runs (s : SingleFlightState) : ℕ :=
  s.runs1 + s.runs2

/-- One atomic step of a single request thread: the redis.get read
(hit goes straight to finished, miss commits to computing), or the
perform_trending_analysis run followed by the redis.setex write-back.
Returns the new thread state, the new cache content, and whether this
step executed the full pipeline. -/
def thread_step (r : ℕ) (ts : ThreadState) (cache : Option ℕ) :
    ThreadState × Option ℕ × Bool :=
  match ts, cache with
  | .ready, some v => (.finished v, some v, false)
  | .ready, none => (.missed, none, false)
  | .missed, _ => (.finished r, some r, true)
  | .finished v, c => (.finished v, c, false)

/-- Scheduler step: run one atomic step of thread 1 (tid = false) or
thread 2 (tid = true). -/
def sys_step (r : ℕ) (s : SingleFlightState) (tid : Bool) :
    SingleFlightState :=
  if tid then
    let step := thread_step r s.t2 s.cache
    { s with
      t2 := step.1
      cache := step.2.1
      runs2 := s.runs2 + (if step.2.2 then 1 else 0) }
  else
    let step := thread_step r s.t1 s.cache
    { s with
      t1 := step.1
      cache := step.2.1
      runs1 := s.runs1 + (if step.2.2 then 1 else 0) }

/-- Run a whole interleaving schedule. -/
def run_schedule (r : ℕ) (sched : List Bool) (s : SingleFlightState) :
    SingleFlightState :=
  sched.foldl (sys_step r) s

/-- Both requests arrive with the key absent from the cache. -/
def initialState : SingleFlightState :=
  { cache := none, t1 := .ready, t2 := .ready, runs1 := 0, runs2 := 0 }

/-! ### Relevance Scorer: budget enforcement and batch grouping -/

/-- Modelled from the spec: the budget gate of the Relevance Scorer (this
backend code is not in the repository sources).  Starting from the running
monthly spend, batches are processed in order; before a batch is sent its
estimated cost is added to the running spend and checked against the
monthly ceiling - if it would exceed the ceiling, the batch is not sent
and all remaining batches are skipped.  Returns the running spend recorded
after each sent batch. -/
def run_scoring_batches (budget : ℚ) : ℚ → List ℚ → List ℚ
  | _, [] => []
  | spent, c :: cs =>
      if spent + c ≤ budget then
        (spent + c) :: run_scoring_batches budget (spent + c) cs
      else
        []

/-- Fuel-indexed batch grouping; the fuel is an upper bound on the number
of batches and makes the recursion structural. -/
def chunk_go (n : ℕ) : ℕ → List ℕ → List (List ℕ)
  | 0, _ => []
  | _ + 1, [] => []
  | fuel + 1, x :: xs =>
      (x :: xs).take n :: chunk_go n fuel ((x :: xs).drop n)

/-- Modelled from the spec: the batch grouping performed by the Relevance
Scorer / gemini_analyze_batch (its body is not in the repository sources;
the design document only passes batch_size=20).  Videos, identified here
by numeric ids, are grouped in order into consecutive batches of n, the
last batch holding the remainder. -/
def make_batches (n : ℕ) (l : List ℕ) : List (List ℕ) :=
  chunk_go n l.length l

/-! ### Orchestrator response on total provider failure -/

/-- The trending endpoint response shape relevant to the total-failure
contract: the success flag, the ranked results, the candidate count, an
optional diagnostic message and the HTTP status code. -/
structure MvpTrendingResponse where
  success : Bool
  results : List String
  total_candidates : ℕ
  message : Option String
  http_status : ℕ
deriving DecidableEq

/-- Modelled from the spec: candidate collection over the provider calls
(search tiers, trending feed); each provider either fails with an error or
contributes a list of video ids, and collection concatenates whatever
succeeded.  The backend collector is not in the repository sources. -/
def collect_candidates : List (Except String (List String)) → List String
  | [] => []
  | .ok vs :: rest => vs ++ collect_candidates rest
  | .error _ :: rest => collect_candidates rest

/-- Modelled from the spec: the orchestrator's response assembly (backend
code not in the repository sources).  Zero usable candidates yield a
success response with an empty result list, a zero candidate count and a
diagnostic message, served with HTTP 200 - never a 5xx. -/
def build_trending_response (candidates : List String) :
    MvpTrendingResponse :=
  if candidates.isEmpty then
    { success := true
      results := []
      total_candidates := 0
      message := some "No trending videos found for this query"
      http_status := 200 }
  else
    { success := true
      results := candidates
      total_candidates := candidates.length
      message := none
      http_status := 200 }

/-! ### Frontend API client: the axios response interceptor -/

/-- The body attached to a server error response (data?.detail,
data?.message). -/
structure ResponseData where
  detail : Option String
  message : Option String
deriving DecidableEq

/-- error.response of a failed axios request: the HTTP status and the
optional body. -/
structure ErrorResponse where
  status : ℕ
  data : Option ResponseData
deriving DecidableEq

/-- A failed axios request as seen by the response interceptor:
error.response when the server answered, error.request when a request went
out, and error.message. -/
structure AxiosError where
  response : Option ErrorResponse
  request : Bool
  message : Option String
deriving DecidableEq

/-- The TrendingAnalysisError thrown by the interceptor: message, HTTP
status, optional detail. -/
structure TrendingAnalysisError where
  message : String
  status : ℕ
  detail : Option String
deriving DecidableEq

/-- JavaScript a || b on strings: an absent or empty string falls through
to the alternative. -/
def jsOr (a : Option String) (b : String) : String :=
  match a with
  | some s => if s = "" then b else s
  | none => b

/-- The error branch of the axios response interceptor in src/lib/api.ts:
every branch throws a TrendingAnalysisError, so the handler is modelled as
a total function onto the thrown error.  A server response yields its
status with data?.detail || data?.message || 'Server error'; a request
without any response yields 503 with the network-error message; anything
else yields 500 with error.message || 'Unknown error occurred'. -/
def response_error_interceptor (e : AxiosError) : TrendingAnalysisError :=
  match e.response with
  | some r =>
      { message := jsOr (r.data.bind ResponseData.detail)
          (jsOr (r.data.bind ResponseData.message) "Server error")
        status := r.status
        detail := r.data.bind ResponseData.detail }
  | none =>
      if e.request then
        { message := "Network error - please check your connection"
          status := 503
          detail := none }
      else
        { message := jsOr e.message "Unknown error occurred"
          status := 500
          detail := none }

/-! ## Theorems -/

/-- Every component of the momentum score of the all-zero-counts video is
zero, for any relevance and any feed flag. -/
theorem zero_counts_score_eq_zero (r : ℝ) (b : Bool) :
    (calculate_v7_trending_score ⟨0, 0, 0, 0, 10, b⟩ r 48).trending_score = 0 := by
  simp [calculate_v7_trending_score, final_score, base_momentum, views_per_hour,
    engagement_rate, time_decay]

/-- C1 fails as stated: for the video with views = 0, views_in_timeframe
= 0, likes = 0 and comments = 0 (age 10h, window 48h), raising the
relevance score from 0 to 1 does not strictly increase the final score,
and turning on the trending-feed flag does not either - the score is 0
either way because base_momentum is 0. -/
theorem C1_counterexample_zero_video :
    ¬ ((calculate_v7_trending_score ⟨0, 0, 0, 0, 10, false⟩ 1 48).trending_score >
        (calculate_v7_trending_score ⟨0, 0, 0, 0, 10, false⟩ 0 48).trending_score) ∧
    ¬ ((calculate_v7_trending_score ⟨0, 0, 0, 0, 10, true⟩ 0.5 48).trending_score >
        (calculate_v7_trending_score ⟨0, 0, 0, 0, 10, false⟩ 0.5 48).trending_score) := by
  constructor
  · rw [zero_counts_score_eq_zero 1 false, zero_counts_score_eq_zero 0 false]
    exact lt_irrefl 0
  · rw [zero_counts_score_eq_zero 0.5 true, zero_counts_score_eq_zero 0.5 false]
    exact lt_irrefl 0

/-- C1 (amended): momentum monotonicity holds whenever the video's
base_momentum is positive.  With the counts, window and feed flag held
fixed and 0 ≤ r1 < r2 ≤ 1, the final score computed with r2 is strictly
greater than with r1; and with everything else held fixed (0 ≤ r ≤ 1),
is_in_trending_feed = true gives a strictly greater final score than
false.  For base_momentum = 0 both scores collapse to 0 and the strict
inequalities fail. -/
theorem C1_momentum_monotone :
    (∀ (video : Video) (timeframe_hours r1 r2 : ℝ),
        0 ≤ r1 → r2 ≤ 1 → r1 < r2 →
        0 < (calculate_v7_trending_score video r1 timeframe_hours).base →
        (calculate_v7_trending_score video r1 timeframe_hours).trending_score <
          (calculate_v7_trending_score video r2 timeframe_hours).trending_score) ∧
    (∀ (video : Video) (timeframe_hours r : ℝ),
        0 ≤ r → r ≤ 1 →
        0 < (calculate_v7_trending_score video r timeframe_hours).base →
        (calculate_v7_trending_score { video with is_in_trending_feed := false }
            r timeframe_hours).trending_score <
          (calculate_v7_trending_score { video with is_in_trending_feed := true }
            r timeframe_hours).trending_score) := by
  constructor
  · intro v tf r1 r2 _ _ h12 hb
    have hb' : 0 < base_momentum v tf := hb
    have hboost : 0 < trending_feed_boost v := by
      unfold trending_feed_boost
      split <;> norm_num
    have hm : country_multiplier r1 < country_multiplier r2 := by
      unfold country_multiplier
      nlinarith
    show final_score v r1 tf < final_score v r2 tf
    unfold final_score
    nlinarith [mul_pos hb' hboost]
  · intro v tf r h0 _ hb
    have hb' : 0 < base_momentum v tf := hb
    have hcm : 0 < country_multiplier r := by
      unfold country_multiplier
      nlinarith
    show final_score { v with is_in_trending_feed := false } r tf <
      final_score { v with is_in_trending_feed := true } r tf
    show base_momentum v tf * country_multiplier r * (1.0 : ℝ) <
      base_momentum v tf * country_multiplier r * (1.5 : ℝ)
    nlinarith [mul_pos hb' hcm]

/-- Witness for the amended C1 at a concrete video (views_in_timeframe 48,
window 48h, everything else zero, feed flag off): its base_momentum is
positive, relevance 1 beats relevance 0 and the trending-feed flag adds a
strict boost. -/
theorem C1_momentum_monotone_witness :
    0 < (calculate_v7_trending_score (⟨0, 48, 0, 0, 0, false⟩ : Video) 0 48).base ∧
    (calculate_v7_trending_score (⟨0, 48, 0, 0, 0, false⟩ : Video) 0 48).trending_score <
      (calculate_v7_trending_score (⟨0, 48, 0, 0, 0, false⟩ : Video) 1 48).trending_score ∧
    (calculate_v7_trending_score (⟨0, 48, 0, 0, 0, false⟩ : Video) 1 48).trending_score <
      (calculate_v7_trending_score (⟨0, 48, 0, 0, 0, true⟩ : Video) 1 48).trending_score := by
  have hb : 0 < (calculate_v7_trending_score (⟨0, 48, 0, 0, 0, false⟩ : Video) 0 48).base := by
    show 0 < base_momentum ⟨0, 48, 0, 0, 0, false⟩ 48
    unfold base_momentum views_per_hour engagement_rate time_decay
    norm_num
  refine ⟨hb, C1_momentum_monotone.1 ⟨0, 48, 0, 0, 0, false⟩ 48 0 1 le_rfl le_rfl one_pos hb, ?_⟩
  exact C1_momentum_monotone.2 ⟨0, 48, 0, 0, 0, false⟩ 48 1 zero_le_one le_rfl hb

/-- C2 fails as stated for the pipeline: the video with views = 0,
likes = 1, comments = 0 has engagement_rate (1+0)/max(0,1) = 1, not 0. -/
theorem C2_counterexample_engagement_rate :
    (⟨0, 0, 1, 0, 5, false⟩ : Video).views = 0 ∧
    engagement_rate ⟨0, 0, 1, 0, 5, false⟩ ≠ 0 := by
  refine ⟨rfl, ?_⟩
  unfold engagement_rate
  rw [show max (0 : ℝ) 1 = 1 from max_eq_right zero_le_one]
  norm_num

/-- C2 (amended): views = 0 never divides by zero - the pipeline's
denominator max(views, 1) is exactly 1 - but the pipeline's
engagement_rate then resolves to likes + comments (0 only when both
counts are 0); the frontend calculateEngagementRate does return 0 for
views = 0 with arbitrary likes and comments. -/
theorem C2_division_safety :
    (∀ video : Video, video.views = 0 →
        max video.views 1 = 1 ∧
        engagement_rate video = video.likes + video.comments) ∧
    (∀ likes comments : ℚ, calculateEngagementRate likes comments 0 = 0) := by
  constructor
  · intro v h
    have hm : max v.views 1 = 1 := by
      rw [h]
      exact max_eq_right zero_le_one
    refine ⟨hm, ?_⟩
    unfold engagement_rate
    rw [hm, div_one]
  · intro likes comments
    simp [calculateEngagementRate]

/-- Witness for the amended C2 at views = 0, likes = 1, comments = 0 (and
likes = 3, comments = 4 for the frontend function). -/
theorem C2_division_safety_witness :
    max (⟨0, 0, 1, 0, 5, false⟩ : Video).views 1 = 1 ∧
    engagement_rate ⟨0, 0, 1, 0, 5, false⟩ =
      (⟨0, 0, 1, 0, 5, false⟩ : Video).likes + (⟨0, 0, 1, 0, 5, false⟩ : Video).comments ∧
    calculateEngagementRate 3 4 0 = 0 := by
  obtain ⟨h1, h2⟩ := C2_division_safety.1 ⟨0, 0, 1, 0, 5, false⟩ rfl
  exact ⟨h1, h2, C2_division_safety.2 3 4⟩

/-- C4: an unscored video (relevance_score = null) receives the neutral
relevance multiplier 1.0, so its final score is exactly base_momentum
times trending_boost - no relevance boost, no penalty. -/
theorem C4_unscored_neutral :
    country_multiplier_opt none = 1 ∧
    ∀ (video : Video) (timeframe_hours : ℝ),
      final_score_opt video none timeframe_hours =
        base_momentum video timeframe_hours * trending_feed_boost video := by
  constructor
  · norm_num [country_multiplier_opt]
  · intro v tf
    unfold final_score_opt country_multiplier_opt
    norm_num

/-- C3: validateQuery returns valid = true exactly when the trimmed query
has length between 2 and 100; every other query yields valid = false
together with an error message, and the search form's handleSubmit
dispatches no search request for it. -/
theorem C3_validateQuery_bounds (query : String) :
    ((validateQuery query).valid = true ↔
      2 ≤ (jsTrim query).length ∧ (jsTrim query).length ≤ 100) ∧
    ((validateQuery query).valid = false →
      (validateQuery query).error.isSome = true ∧
      ∀ form : SearchFormData, form.query = query → handleSubmit form = none) := by
  constructor
  · unfold validateQuery
    by_cases h0 : jsTrim query = ""
    · have hl : (jsTrim query).length = 0 := by rw [h0]; rfl
      simp [h0, hl]
    · simp only [h0, if_false]
      by_cases h1 : (jsTrim query).length < 2
      · simp only [h1, if_true]
        constructor
        · intro h
          cases h
        · intro h
          omega
      · simp only [h1, if_false]
        by_cases h2 : (jsTrim query).length > 100
        · simp only [h2, if_true]
          constructor
          · intro h
            cases h
          · intro h
            omega
        · simp only [h2, if_false]
          constructor
          · intro _
            omega
          · intro _
            trivial
  · intro hv
    constructor
    · unfold validateQuery at hv ⊢
      by_cases h0 : jsTrim query = ""
      · simp [h0]
      · simp only [h0, if_false] at hv ⊢
        by_cases h1 : (jsTrim query).length < 2
        · simp [h1]
        · simp only [h1, if_false] at hv ⊢
          by_cases h2 : (jsTrim query).length > 100
          · simp [h2]
          · simp only [h2, if_false] at hv
            exact absurd hv (by simp)
    · intro form hf
      simp [handleSubmit, hf, hv]

/-- Witness for C3: "ab" passes validation, "a" fails with an error
message and its form submission dispatches nothing. -/
theorem C3_validateQuery_bounds_witness :
    (validateQuery "ab").valid = true ∧
    (validateQuery "a").valid = false ∧
    (validateQuery "a").error.isSome = true ∧
    handleSubmit { query := "a", country := .US, timeframe := .t48h, limit := 10 } = none := by
  have hab := (C3_validateQuery_bounds "ab").1.mpr (by decide)
  have ha := (C3_validateQuery_bounds "a").2 (by decide)
  exact ⟨hab, by decide, ha.1, ha.2 _ rfl⟩

/-- C5 fails as stated: for the concrete query (gaming, US, 48h) issued at
times 0 and 1 (well inside the 7200s TTL), both calls return bit-identical
payloads, but the second call returns the cached payload verbatim, so its
metadata still reports cache_hit = false rather than true. -/
theorem C5_counterexample_cache_hit :
    (get_trending_results sample_analysis "gaming" .US .t48h 1
        (get_trending_results sample_analysis "gaming" .US .t48h 0 []).2).1 =
      (get_trending_results sample_analysis "gaming" .US .t48h 0 []).1 ∧
    ¬ ((get_trending_results sample_analysis "gaming" .US .t48h 1
        (get_trending_results sample_analysis "gaming" .US .t48h 0 []).2).1.metadata.cache_hit
          = true) := by
  decide

/-- C5 (amended): two identical queries within the TTL do return
bit-identical payloads - the second is served from the cache - but since
get_trending_results returns the cached JSON verbatim, the second
response's metadata carries the cache_hit flag that was stored with the
fresh computation instead of being rewritten to true. -/
theorem C5_cache_idempotence
    (analyze : String → CountryCode → TimeframeOption → TrendingPayload)
    (query : String) (country : CountryCode) (timeframe : TimeframeOption)
    (t1 t2 : ℕ) (store : List CacheEntry)
    (hmiss : redis_get store t1 (cache_key query country timeframe) = none)
    (httl : t2 < t1 + 7200) :
    (get_trending_results analyze query country timeframe t2
        (get_trending_results analyze query country timeframe t1 store).2).1 =
      (get_trending_results analyze query country timeframe t1 store).1 ∧
    (get_trending_results analyze query country timeframe t2
        (get_trending_results analyze query country timeframe t1 store).2).1.metadata.cache_hit =
      (analyze query country timeframe).metadata.cache_hit := by
  have h1 : get_trending_results analyze query country timeframe t1 store =
      (analyze query country timeframe,
        redis_setex store t1 (cache_key query country timeframe) 7200
          (analyze query country timeframe)) := by
    simp only [get_trending_results, hmiss]
  have h2 : redis_get
      (redis_setex store t1 (cache_key query country timeframe) 7200
        (analyze query country timeframe)) t2
      (cache_key query country timeframe) =
      some (analyze query country timeframe) := by
    unfold redis_get redis_setex
    rw [List.find?_cons_of_pos]
    · rfl
    · simp [httl]
  rw [h1]
  simp only [get_trending_results, h2]
  exact ⟨trivial, trivial⟩

/-- Witness for the amended C5 at the concrete query (gaming, US, 48h),
times 0 and 1, empty initial cache. -/
theorem C5_cache_idempotence_witness :
    (get_trending_results sample_analysis "gaming" .US .t48h 1
        (get_trending_results sample_analysis "gaming" .US .t48h 0 []).2).1 =
      (get_trending_results sample_analysis "gaming" .US .t48h 0 []).1 ∧
    (get_trending_results sample_analysis "gaming" .US .t48h 1
        (get_trending_results sample_analysis "gaming" .US .t48h 0 []).2).1.metadata.cache_hit =
      (sample_analysis "gaming" .US .t48h).metadata.cache_hit :=
  C5_cache_idempotence sample_analysis "gaming" .US .t48h 0 1 []
    (by decide) (by decide)

/-- C6: the budget gate keeps the running spend monotone and bounded.
With non-negative batch cost estimates and the running monthly spend
within the ceiling, the spend recorded after each sent batch is
non-decreasing and never exceeds the ceiling; a first batch whose
estimated cost would exceed the ceiling causes no batch at all to be
sent. -/
theorem C6_budget_invariant (budget spent : ℚ) (costs : List ℚ)
    (hcosts : ∀ c ∈ costs, 0 ≤ c) (hspent : spent ≤ budget) :
    List.Chain' (fun a b => a ≤ b)
      (spent :: run_scoring_batches budget spent costs) ∧
    (∀ s ∈ run_scoring_batches budget spent costs, s ≤ budget) ∧
    (∀ c cs, costs = c :: cs → budget < spent + c →
      run_scoring_batches budget spent costs = []) := by
  induction costs generalizing spent with
  | nil =>
      refine ⟨List.chain'_singleton spent, ?_, ?_⟩
      · intro s hs
        simp [run_scoring_batches] at hs
      · intro c cs h
        cases h
  | cons c cs ih =>
      have hc0 : 0 ≤ c := hcosts c (List.mem_cons_self c cs)
      have hcosts' : ∀ x ∈ cs, 0 ≤ x := fun x hx =>
        hcosts x (List.mem_cons_of_mem c hx)
      by_cases hsend : spent + c ≤ budget
      · obtain ⟨ihchain, ihmem, _⟩ := ih (spent + c) hcosts' hsend
        simp only [run_scoring_batches, if_pos hsend]
        refine ⟨?_, ?_, ?_⟩
        · exact List.chain'_cons.mpr ⟨le_add_of_nonneg_right hc0, ihchain⟩
        · intro s hs
          rcases List.mem_cons.mp hs with h | h
          · rw [h]; exact hsend
          · exact ihmem s h
        · intro c' cs' heq hover
          obtain ⟨hc', _⟩ := List.cons.inj heq
          rw [← hc'] at hover
          exact absurd hsend (not_le.mpr hover)
      · simp only [run_scoring_batches, if_neg hsend]
        refine ⟨List.chain'_singleton spent, ?_, fun _ _ _ _ => trivial⟩
        intro s hs
        simp at hs

/-- Witness for C6: ceiling 50, spend 0, estimated batch costs
[10, 20, 30]: two batches are sent (spends 10, 30), the third would
overshoot and is skipped, and the recorded spends are monotone and within
the ceiling. -/
theorem C6_budget_invariant_witness :
    run_scoring_batches 50 0 [10, 20, 30] = [10, 30] ∧
    List.Chain' (fun a b => a ≤ b) (0 :: run_scoring_batches 50 0 [10, 20, 30]) ∧
    (∀ s ∈ run_scoring_batches 50 0 [10, 20, 30], s ≤ 50) := by
  have hcosts : ∀ c ∈ ([10, 20, 30] : List ℚ), (0 : ℚ) ≤ c := by
    intro c hc
    fin_cases hc <;> norm_num
  have h := C6_budget_invariant 50 0 [10, 20, 30] hcosts (by norm_num)
  exact ⟨by norm_num [run_scoring_batches], h.1, h.2.1⟩

/-- When every provider call fails, candidate collection yields no
candidates. -/
theorem collect_candidates_all_fail
    (sources : List (Except String (List String)))
    (hfail : ∀ s ∈ sources, ∃ e, s = Except.error e) :
    collect_candidates sources = [] := by
  induction sources with
  | nil => rfl
  | cons s ss ih =>
      obtain ⟨e, he⟩ := hfail s (List.mem_cons_self s ss)
      subst he
      exact ih fun x hx => hfail x (List.mem_cons_of_mem _ hx)

/-- C7: when all provider calls fail and zero usable candidates are
collected, the trending endpoint answers success = true with an empty
result list, a zero candidate count and a diagnostic message, served as
HTTP 200 - never a 5xx. -/
theorem C7_total_failure_empty_result
    (sources : List (Except String (List String)))
    (hfail : ∀ s ∈ sources, ∃ e, s = Except.error e) :
    (build_trending_response (collect_candidates sources)).success = true ∧
    (build_trending_response (collect_candidates sources)).results = [] ∧
    (build_trending_response (collect_candidates sources)).total_candidates = 0 ∧
    (build_trending_response (collect_candidates sources)).message.isSome = true ∧
    (build_trending_response (collect_candidates sources)).http_status = 200 ∧
    (build_trending_response (collect_candidates sources)).http_status < 500 := by
  rw [collect_candidates_all_fail sources hfail]
  refine ⟨rfl, rfl, rfl, rfl, rfl, ?_⟩
  norm_num [build_trending_response]

/-- Witness for C7: search tiers, trending feed and scoring all fail. -/
theorem C7_total_failure_witness :
    (build_trending_response (collect_candidates
        [Except.error "search quota", Except.error "feed down",
          Except.error "llm timeout"])).success = true ∧
    (build_trending_response (collect_candidates
        [Except.error "search quota", Except.error "feed down",
          Except.error "llm timeout"])).results = [] ∧
    (build_trending_response (collect_candidates
        [Except.error "search quota", Except.error "feed down",
          Except.error "llm timeout"])).total_candidates = 0 := by
  have h := C7_total_failure_empty_result
    [Except.error "search quota", Except.error "feed down",
      Except.error "llm timeout"]
    (by
      intro s hs
      fin_cases hs <;> exact ⟨_, rfl⟩)
  exact ⟨h.1, h.2.1, h.2.2.1⟩

/-- Grouping the empty list yields no batches, whatever the fuel. -/
theorem chunk_go_nil (n fuel : ℕ) : chunk_go n fuel [] = [] := by
  cases fuel <;> rfl

/-- Truncated-division step used to count batches. -/
theorem batch_count_step (n m : ℕ) (hn : 0 < n) (hm : 1 ≤ m) :
    (m - n + n - 1) / n + 1 = (m + n - 1) / n := by
  rcases le_or_lt n m with h | h
  · have h1 : m - n + n - 1 = m - 1 := by omega
    have h2 : m + n - 1 = m - 1 + n := by omega
    rw [h1, h2, Nat.add_div_right _ hn]
  · have h1 : m - n = 0 := by omega
    have h2 : (0 + n - 1) / n = 0 := Nat.div_eq_of_lt (by omega)
    have h3 : (m + n - 1) / n = 1 :=
      Nat.div_eq_of_lt_le (by omega) (by omega)
    rw [h1, h2, h3]

/-- With enough fuel, grouping a list of m elements into batches of n
produces exactly ceil(m/n) = (m + n - 1) / n batches. -/
theorem chunk_go_length (n : ℕ) (hn : 0 < n) :
    ∀ (fuel : ℕ) (l : List ℕ), l.length ≤ fuel →
      (chunk_go n fuel l).length = (l.length + n - 1) / n := by
  intro fuel
  induction fuel with
  | zero =>
      intro l hl
      have h0 : l = [] := List.length_eq_zero.mp (Nat.le_zero.mp hl)
      subst h0
      rw [chunk_go_nil]
      simp [Nat.div_eq_of_lt (show n - 1 < n by omega)]
  | succ fuel ih =>
      intro l hl
      cases l with
      | nil =>
          rw [chunk_go_nil]
          simp [Nat.div_eq_of_lt (show n - 1 < n by omega)]
      | cons x xs =>
          have hdrop : ((x :: xs).drop n).length ≤ fuel := by
            rw [List.length_drop]
            simp only [List.length_cons] at hl ⊢
            omega
          show ((x :: xs).take n :: chunk_go n fuel ((x :: xs).drop n)).length = _
          rw [List.length_cons, ih _ hdrop, List.length_drop]
          have hm : 1 ≤ (x :: xs).length := by simp
          exact batch_count_step n (x :: xs).length hn hm

/-- With enough fuel, every batch except possibly the last has exactly n
elements. -/
theorem chunk_go_dropLast (n : ℕ) (hn : 0 < n) :
    ∀ (fuel : ℕ) (l : List ℕ), l.length ≤ fuel →
      ∀ b ∈ (chunk_go n fuel l).dropLast, b.length = n := by
  intro fuel
  induction fuel with
  | zero =>
      intro l hl b hb
      have h0 : l = [] := List.length_eq_zero.mp (Nat.le_zero.mp hl)
      subst h0
      rw [chunk_go_nil] at hb
      simp at hb
  | succ fuel ih =>
      intro l hl b hb
      cases l with
      | nil =>
          rw [chunk_go_nil] at hb
          simp at hb
      | cons x xs =>
          have hdrop : ((x :: xs).drop n).length ≤ fuel := by
            rw [List.length_drop]
            simp only [List.length_cons] at hl ⊢
            omega
          have hstep : chunk_go n (fuel + 1) (x :: xs) =
              (x :: xs).take n :: chunk_go n fuel ((x :: xs).drop n) := rfl
          rw [hstep] at hb
          rcases hrest : chunk_go n fuel ((x :: xs).drop n) with _ | ⟨r, rs⟩
          · rw [hrest] at hb
            simp at hb
          · rw [hrest, List.dropLast_cons₂] at hb
            rcases List.mem_cons.mp hb with hb1 | hb2
            · subst hb1
              have hne : (x :: xs).drop n ≠ [] := by
                intro hnil
                rw [hnil, chunk_go_nil] at hrest
                cases hrest
              have hlen : n < (x :: xs).length := by
                by_contra hcon
                exact hne (List.drop_eq_nil_iff.mpr (by omega))
              rw [List.length_take]
              omega
            · rw [← hrest] at hb2
              exact ih _ hdrop b hb2

/-- Number of batches produced by make_batches. -/
theorem make_batches_length (n : ℕ) (hn : 0 < n) (l : List ℕ) :
    (make_batches n l).length = (l.length + n - 1) / n :=
  chunk_go_length n hn l.length l le_rfl

/-- Every batch of make_batches except possibly the last is full. -/
theorem make_batches_dropLast (n : ℕ) (hn : 0 < n) (l : List ℕ) :
    ∀ b ∈ (make_batches n l).dropLast, b.length = n :=
  chunk_go_dropLast n hn l.length l le_rfl

/-- C8: with batch size 20, a list of n unscored videos is grouped into
exactly ceil(n/20) batches, each batch except possibly the last holding
exactly 20 videos; for 25 videos exactly 2 batches are issued and the
second holds exactly 5 videos. -/
theorem C8_batch_partitioning :
    (∀ l : List ℕ, (make_batches 20 l).length = (l.length + 19) / 20) ∧
    (∀ l : List ℕ, ∀ b ∈ (make_batches 20 l).dropLast, b.length = 20) ∧
    (make_batches 20 (List.range 25)).length = 2 ∧
    ((make_batches 20 (List.range 25)).getD 1 []).length = 5 := by
  refine ⟨?_, ?_, by decide, by decide⟩
  · intro l
    have h : l.length + 20 - 1 = l.length + 19 := by omega
    rw [make_batches_length 20 (by norm_num) l, h]
  · intro l
    exact make_batches_dropLast 20 (by norm_num) l

/-- Witness for C8 on the 25-video list: the general count formula gives
(25 + 19) / 20 = 2 batches and the first batch, which is not the last,
holds exactly 20 videos. -/
theorem C8_batch_partitioning_witness :
    (make_batches 20 (List.range 25)).length = (25 + 19) / 20 ∧
    ((List.range 25).take 20).length = 20 := by
  constructor
  · have h := C8_batch_partitioning.1 (List.range 25)
    simpa using h
  · exact C8_batch_partitioning.2.1 (List.range 25) ((List.range 25).take 20)
      (by decide)

/-- Invariant of the interleaving model: a thread that has not yet passed
its cache read (ready) or is about to compute (missed) has performed no
pipeline run, and no thread ever performs more than one. -/
def run_invariant (s : SingleFlightState) : Prop :=
  (s.runs1 ≤ 1 ∧ ((s.t1 = .ready ∨ s.t1 = .missed) → s.runs1 = 0)) ∧
  (s.runs2 ≤ 1 ∧ ((s.t2 = .ready ∨ s.t2 = .missed) → s.runs2 = 0))

/-- Every scheduler step preserves the invariant. -/
theorem run_invariant_step (r : ℕ) (s : SingleFlightState) (tid : Bool)
    (h : run_invariant s) : run_invariant (sys_step r s tid) := by
  obtain ⟨⟨h11, h12⟩, h21, h22⟩ := h
  cases tid <;> cases ht1 : s.t1 <;> cases ht2 : s.t2 <;> cases hc : s.cache <;>
    simp_all [run_invariant, sys_step, thread_step]

/-- Running any schedule from an invariant state stays in the invariant. -/
theorem run_invariant_schedule (r : ℕ) (sched : List Bool)
    (s : SingleFlightState) (h : run_invariant s) :
    run_invariant (run_schedule r sched s) := by
  induction sched generalizing s with
  | nil => exact h
  | cons b bs ih =>
      simpa [run_schedule] using ih (sys_step r s b) (run_invariant_step r s b h)

/-- C9 fails as stated: under the schedule where both requests read the
cache (both missing) before either writes, two full pipeline executions
run for the same key - the misses are not collapsed into one in-flight
computation. -/
theorem C9_counterexample_double_run :
    ¬ (pipeline_runs (run_schedule 7 [false, true, false, true] initialState) ≤ 1) := by
  decide

/-- C9 (amended): get_trending_results does not single-flight concurrent
misses; what the unsynchronized check-then-compute code does guarantee is
that each concurrent requester triggers at most one pipeline run (so at
most one run per requester - two with two requesters), and a requester
whose cache read hits the stored result finishes immediately with the
cached value without running the pipeline. -/
theorem C9_no_single_flight :
    (∀ (r : ℕ) (sched : List Bool),
        pipeline_runs (run_schedule r sched initialState) ≤ 2) ∧
    (∀ (r v : ℕ) (s : SingleFlightState), s.cache = some v → s.t1 = .ready →
        (sys_step r s false).t1 = .finished v ∧
        pipeline_runs (sys_step r s false) = pipeline_runs s) := by
  constructor
  · intro r sched
    have h := run_invariant_schedule r sched initialState
      (by simp [run_invariant, initialState])
    obtain ⟨⟨h1, _⟩, h2, _⟩ := h
    unfold pipeline_runs
    omega
  · intro r v s hc ht
    constructor
    · simp [sys_step, thread_step, hc, ht]
    · simp [sys_step, thread_step, hc, ht, pipeline_runs]

/-- Witness for the amended C9: the double-miss schedule performs exactly
two runs (within the at-most-one-per-requester bound), and a request that
reads a populated cache finishes without any pipeline run. -/
theorem C9_no_single_flight_witness :
    pipeline_runs (run_schedule 7 [false, true, false, true] initialState) ≤ 2 ∧
    (sys_step 7 ⟨some 5, .ready, .ready, 0, 0⟩ false).t1 = .finished 5 ∧
    pipeline_runs (sys_step 7 ⟨some 5, .ready, .ready, 0, 0⟩ false) =
      pipeline_runs ⟨some 5, .ready, .ready, 0, 0⟩ := by
  refine ⟨C9_no_single_flight.1 7 [false, true, false, true], ?_, ?_⟩
  · exact (C9_no_single_flight.2 7 5 ⟨some 5, .ready, .ready, 0, 0⟩ rfl rfl).1
  · exact (C9_no_single_flight.2 7 5 ⟨some 5, .ready, .ready, 0, 0⟩ rfl rfl).2

/-- C10: the axios response interceptor's error branch always yields a
thrown TrendingAnalysisError: with a server response it carries that
response's HTTP status, the response's detail or message text falling back
to 'Server error', and the detail; with no response but a sent request it
is exactly the 503 network error; in every other failure case the status
is 500 with error.message falling back to 'Unknown error occurred'. -/
theorem C10_error_taxonomy (e : AxiosError) :
    (∀ resp, e.response = some resp →
        (response_error_interceptor e).status = resp.status ∧
        (response_error_interceptor e).message =
          jsOr (resp.data.bind ResponseData.detail)
            (jsOr (resp.data.bind ResponseData.message) "Server error") ∧
        (response_error_interceptor e).detail =
          resp.data.bind ResponseData.detail) ∧
    (e.response = none → e.request = true →
        response_error_interceptor e =
          { message := "Network error - please check your connection"
            status := 503
            detail := none }) ∧
    (e.response = none → e.request = false →
        (response_error_interceptor e).status = 500 ∧
        (response_error_interceptor e).message =
          jsOr e.message "Unknown error occurred") := by
  refine ⟨?_, ?_, ?_⟩
  · intro resp h
    simp [response_error_interceptor, h]
  · intro h hr
    simp [response_error_interceptor, h, hr]
  · intro h hr
    simp [response_error_interceptor, h, hr]

/-- Witness for C10 at three concrete failures: a 404 with a detail body,
a request with no response, and a setup failure with neither. -/
theorem C10_error_taxonomy_witness :
    (response_error_interceptor
        ⟨some ⟨404, some ⟨some "Not found", none⟩⟩, true, none⟩).status = 404 ∧
    (response_error_interceptor
        ⟨some ⟨404, some ⟨some "Not found", none⟩⟩, true, none⟩).message = "Not found" ∧
    response_error_interceptor ⟨none, true, none⟩ =
      { message := "Network error - please check your connection"
        status := 503
        detail := none } ∧
    (response_error_interceptor ⟨none, false, none⟩).status = 500 := by
  have h1 := (C10_error_taxonomy
    ⟨some ⟨404, some ⟨some "Not found", none⟩⟩, true, none⟩).1 _ rfl
  have h2 := (C10_error_taxonomy ⟨none, true, none⟩).2.1 rfl rfl
  have h3 := (C10_error_taxonomy ⟨none, false, none⟩).2.2 rfl rfl
  refine ⟨h1.1, ?_, h2, h3.1⟩
  rw [h1.2.1]
  decide

end YTTA
